import Mathlib

/-!
Verification development for a terminal front-end that drives the external
yt-dlp process (src/app/main.py).  The source interleaves line
classification and state reduction in one elif chain inside run_download;
here the chain is split, as in the specification, into a pure classifier
from output lines to events and a reducer folding events into a Snapshot.
Lines are modelled as lists of characters; Python floats are modelled as
rationals; Python int() truncation toward zero is modelled by pyInt.
-/

namespace Ytmdl

abbrev Line := List Char

/-- Membership test for the characters Python str.strip and the regex
class \s treat as whitespace (ASCII subset). -/
def isPySpace (c : Char) : Bool :=
  c = ' ' || c = '\t' || c = '\n' || c = '\r' || c = '\x0b' || c = '\x0c'

/-- Python lstrip on a character list. -/
def lstripL (s : Line) : Line := s.dropWhile isPySpace

/-- Python rstrip on a character list. -/
def rstripL (s : Line) : Line := (s.reverse.dropWhile isPySpace).reverse

/-- Python str.strip. -/
def stripL (s : Line) : Line := rstripL (lstripL s)

/-- Does pat occur as a contiguous substring of s (Python `pat in s`)? -/
def hasSub (pat : Line) : Line → Bool
  | [] => pat.isEmpty
  | c :: rest => pat.isPrefixOf (c :: rest) || hasSub pat rest

/-- If pat is a prefix of s, return the remainder of s after it. -/
def dropPre (pat s : Line) : Option Line :=
  if pat.isPrefixOf s then some (s.drop pat.length) else none

/-- Remainder of s after the first occurrence of pat (re.search for a
literal followed by a capturing group). -/
def findRest (pat : Line) : Line → Option Line
  | [] => if pat.isEmpty then some [] else none
  | c :: rest =>
    if pat.isPrefixOf (c :: rest) then some ((c :: rest).drop pat.length)
    else findRest pat rest

/-- Maximal run of decimal digits at the head of the list (greedy \d+). -/
def takeDigits : Line → Line × Line
  | [] => ([], [])
  | c :: rest =>
    if c.isDigit then
      let p := takeDigits rest
      (c :: p.1, p.2)
    else ([], c :: rest)

/-- Maximal run of whitespace at the head of the list (greedy \s+). -/
def takeSpaces : Line → Line × Line
  | [] => ([], [])
  | c :: rest =>
    if isPySpace c then
      let p := takeSpaces rest
      (c :: p.1, p.2)
    else ([], c :: rest)

/-- Numeric value of a digit run, as Python int() of the matched group. -/
def digitsToNat (ds : Line) : Nat :=
  ds.foldl (fun acc c => 10 * acc + (c.toNat - 48)) 0

/-- Run a positional matcher at every start position, returning the
leftmost success (re.search). -/
def searchO {α : Type} (f : Line → Option α) : Line → Option α
  | [] => f []
  | c :: rest =>
    match f (c :: rest) with
    | some v => some v
    | none => searchO f rest

/-- Boolean variant of searchO. -/
def searchB (f : Line → Bool) : Line → Bool
  | [] => f []
  | c :: rest => f (c :: rest) || searchB f rest

/-- Floor of a rational, written with integer Euclidean division so that
the kernel can evaluate it. -/
def ratFloor (q : ℚ) : Int := q.num / (q.den : Int)

/-- Ceiling of a rational, via the floor of the negation. -/
def ratCeil (q : ℚ) : Int := -ratFloor (-q)

/-- Truncation toward zero, the behaviour of Python int() on a float. -/
def pyInt (q : ℚ) : Int := if 0 ≤ q then ratFloor q else ratCeil q

/-- Decimal digits of a natural number. -/
def natChars (n : Nat) : Line := Nat.toDigits 10 n

/-- Decimal rendering of an integer, as Python str(). -/
def intChars (i : Int) : Line :=
  if i < 0 then '-' :: natChars i.natAbs else natChars i.toNat

/-- os.path.basename: the part after the last slash. -/
def basenameL (p : Line) : Line :=
  p.foldl (fun acc c => if c = '/' then [] else acc ++ [c]) []

/-- Index of the last occurrence of a character, if any. -/
def lastIdxOf (ch : Char) : Line → Option Nat
  | [] => none
  | c :: rest =>
    match lastIdxOf ch rest with
    | some i => some (i + 1)
    | none => if c = ch then some 0 else none

/-- os.path.splitext applied to a plain filename (no slash), keeping the
stem: split at the last dot unless every character before it is a dot. -/
def splitextStem (p : Line) : Line :=
  match lastIdxOf '.' p with
  | none => p
  | some i => if (p.take i).any (fun c => c ≠ '.') then p.take i else p

/-- Filename displayed for a Destination path: basename with the
extension stripped. -/
def stemOf (fp : Line) : Line := splitextStem (basenameL fp)

/-- Python " ".join on a list of strings. -/
def joinSpace : List Line → Line
  | [] => []
  | [x] => x
  | x :: xs => x ++ ' ' :: joinSpace xs

/-- Events: one per branch of the parsing elif chain in run_download.
The two branches with no counterpart in the specification are kept:
extractingTrackInfo for the dead branch matching
\[youtube\] Extracting URL: https://[^\s]+  and videoId for the branch
matching \[youtube\] ([^:]+): Downloading ... , whose body is empty. -/
inductive Event : Type
  | extractingUrl
  | redirect
  | fetchingPlaylistData
  | playlistFound (name : Line)
  | playlistItemCount (available totalAdvertised : Nat)
  | itemProgress (index total : Nat)
  | extractingTrackInfo
  | videoId
  | destinationFile (filename : Line)
  | itemPercent (percent : ℚ)
  | alreadyDownloaded
  | convertingAudio (filename : Option Line)
  | embeddingThumbnail
  | embeddingMetadata
  | cleanup
  | warning (text : Line)
  | error
  | unrecognized
deriving DecidableEq

/-- Matcher at one position for: Downloading (\d+) items? of (\d+). -/
def itemCountAt (s : Line) : Option (Nat × Nat) :=
  match dropPre (("Downloading ").toList) s with
  | none => none
  | some r1 =>
    let p1 := takeDigits r1
    if p1.1 = [] then none else
    match dropPre ((" item").toList) p1.2 with
    | none => none
    | some r3 =>
      let r4 := match r3 with
        | 's' :: t => t
        | _ => r3
      match dropPre ((" of ").toList) r4 with
      | none => none
      | some r5 =>
        let p2 := takeDigits r5
        if p2.1 = [] then none
        else some (digitsToNat p1.1, digitsToNat p2.1)

/-- Matcher at one position for: Downloading item (\d+) of (\d+). -/
def itemProgAt (s : Line) : Option (Nat × Nat) :=
  match dropPre (("Downloading item ").toList) s with
  | none => none
  | some r1 =>
    let p1 := takeDigits r1
    if p1.1 = [] then none else
    match dropPre ((" of ").toList) p1.2 with
    | none => none
    | some r3 =>
      let p2 := takeDigits r3
      if p2.1 = [] then none
      else some (digitsToNat p1.1, digitsToNat p2.1)

/-- Matcher at one position for: \[download\]\s+(\d+\.?\d*)% ; the
matched group is converted as Python float() into a rational. -/
def percentAt (s : Line) : Option ℚ :=
  match dropPre (("[download]").toList) s with
  | none => none
  | some r1 =>
    let w := takeSpaces r1
    if w.1 = [] then none else
    let d1 := takeDigits w.2
    if d1.1 = [] then none else
    match d1.2 with
    | '%' :: _ => some ((digitsToNat d1.1 : ℚ))
    | '.' :: r4 =>
      let d2 := takeDigits r4
      match d2.2 with
      | '%' :: _ =>
          some ((digitsToNat d1.1 : ℚ) + (digitsToNat d2.1 : ℚ) / ((10 : ℚ) ^ d2.1.length))
      | _ => none
    | _ => none

/-- Matcher at one position for: \[youtube\] Extracting URL: https://[^\s]+. -/
def extractingTrackAt (s : Line) : Bool :=
  match dropPre (("[youtube] Extracting URL: https://").toList) s with
  | some (c :: _) => !isPySpace c
  | _ => false

/-- Matcher at one position for:
\[youtube\] ([^:]+): Downloading (?:webpage|ios player API JSON|android player API JSON). -/
def videoIdAt (s : Line) : Bool :=
  match dropPre (("[youtube] ").toList) s with
  | none => false
  | some r1 =>
    let p := r1.span (fun c => c ≠ ':')
    if p.1 = [] then false else
    match p.2 with
    | ':' :: r3 =>
        ((" Downloading webpage").toList).isPrefixOf r3 ||
        ((" Downloading ios player API JSON").toList).isPrefixOf r3 ||
        ((" Downloading android player API JSON").toList).isPrefixOf r3
    | _ => false

/-- Group of re.search for: Downloading playlist: (.+) ; the remainder of
the line after the first occurrence of the label, when nonempty. -/
def playlistNameOf (l : Line) : Option Line :=
  match findRest (("Downloading playlist: ").toList) l with
  | some (c :: rest) => some (c :: rest)
  | _ => none

/-- Group of re.search for: \[download\] Destination: (.+). -/
def dlDestOf (l : Line) : Option Line :=
  match findRest (("[download] Destination: ").toList) l with
  | some (c :: rest) => some (c :: rest)
  | _ => none

/-- Group of re.search for: Destination: (.+) (inside the ExtractAudio
branch). -/
def destOf (l : Line) : Option Line :=
  match findRest (("Destination: ").toList) l with
  | some (c :: rest) => some (c :: rest)
  | _ => none

/-- Text after the first WARNING: marker, stripped
(line.split with WARNING: then strip). -/
def warningMsgOf (l : Line) : Line :=
  stripL ((findRest (("WARNING:").toList) l).getD [])

/-- The line classifier: the parsing elif chain of run_download
(src/app/main.py lines 478-586) with the state updates of each branch
replaced by the event the branch recognises. -/
def classify (line : Line) : Event :=
  if hasSub (("Extracting URL:").toList) line then .extractingUrl
  else if hasSub (("YouTube Music is not directly supported").toList) line then .redirect
  else if (hasSub (("Downloading webpage").toList) line || hasSub (("Downloading API JSON").toList) line) then .fetchingPlaylistData
  else match playlistNameOf line with
  | some nm => .playlistFound nm
  | none =>
  match searchO itemCountAt line with
  | some v => .playlistItemCount v.1 v.2
  | none =>
  match searchO itemProgAt line with
  | some v => .itemProgress v.1 v.2
  | none =>
  if searchB extractingTrackAt line then .extractingTrackInfo
  else if searchB videoIdAt line then .videoId
  else match dlDestOf line with
  | some fp => .destinationFile (stemOf fp)
  | none =>
  match searchO percentAt line with
  | some p => .itemPercent p
  | none =>
  if (hasSub (("[download]").toList) line && hasSub (("has already been downloaded").toList) line) then .alreadyDownloaded
  else if hasSub (("[ExtractAudio]").toList) line then .convertingAudio ((destOf line).map stemOf)
  else if hasSub (("[EmbedThumbnail]").toList) line then .embeddingThumbnail
  else if (hasSub (("[Metadata]").toList) line || hasSub (("Adding metadata").toList) line) then .embeddingMetadata
  else if hasSub (("Deleting original file").toList) line then .cleanup
  else if hasSub (("WARNING:").toList) line then .warning (warningMsgOf line)
  else if hasSub (("ERROR:").toList) line then .error
  else .unrecognized

/-- The aggregated display state: the widget texts together with the
local variables of run_download that persist across lines
(playlist_total as progressTotal, current_item as currentItem,
current_filename as storedFilename). -/
structure Snapshot : Type where
  currentAction : Line
  statusMessage : Line
  playlistInfo : Line
  currentFilename : Line
  storedFilename : Option Line
  currentItem : Nat
  progressCurrent : Int
  progressTotal : Int
deriving DecidableEq

/-- The fresh snapshot at the start of a download: zero and empty
defaults. -/
def Snapshot.init : Snapshot :=
  { currentAction := []
    statusMessage := []
    playlistInfo := []
    currentFilename := []
    storedFilename := none
    currentItem := 0
    progressCurrent := 0
    progressTotal := 0 }

/-- Playlist info text built by the item count branch. -/
def itemsInfo (available total : Nat) : Line :=
  ("Items: ").toList ++ natChars available ++ (" available").toList ++
    (if available < total then
      (" (").toList ++ natChars (total - available) ++ (" unavailable)").toList
     else [])

/-- The reducer: the state updates of each branch of the parsing chain
in run_download. -/
def reduce (s : Snapshot) : Event → Snapshot
  | .extractingUrl =>
      { s with currentAction := ("🔍 Extracting URL...").toList
               statusMessage := ("⏳ Extracting URL...").toList
               currentFilename := [] }
  | .redirect => { s with currentAction := ("↪️ Redirecting to YouTube...").toList }
  | .fetchingPlaylistData => { s with currentAction := ("📥 Fetching playlist data...").toList }
  | .playlistFound nm =>
      { s with currentAction := ("📋 Found playlist: ").toList ++ nm
               statusMessage := ("📋 Playlist: ").toList ++ nm }
  | .playlistItemCount available total =>
      { s with playlistInfo := itemsInfo available total
               progressCurrent := 0
               progressTotal := (available : Int) }
  | .itemProgress i t =>
      { s with currentAction := ("⬇️ Downloading track ").toList ++ natChars i ++ (" of ").toList ++ natChars t
               statusMessage := ("⏳ Downloading ").toList ++ natChars i ++ ("/").toList ++ natChars t
               currentItem := i
               progressCurrent := (i : Int) - 1
               progressTotal := (t : Int) }
  | .extractingTrackInfo => { s with currentAction := ("🎵 Extracting track info...").toList }
  | .videoId => s
  | .destinationFile fn =>
      { s with storedFilename := some fn, currentFilename := fn }
  | .itemPercent p =>
      if 0 < s.progressTotal then
        { s with progressCurrent := pyInt (((s.currentItem : ℚ) - 1) + p / 100) }
      else s
  | .alreadyDownloaded =>
      let s1 := { s with currentAction := ("✓ Track already downloaded (skipping)").toList }
      match s.storedFilename with
      | some (c :: cs) => { s1 with currentFilename := (c :: cs) ++ (" (already downloaded)").toList }
      | _ => s1
  | .convertingAudio fo =>
      { s with currentAction := ("🔄 Converting to audio format...").toList
               currentFilename := match fo with
                 | some f => f
                 | none => s.currentFilename }
  | .embeddingThumbnail => { s with currentAction := ("🖼️ Embedding thumbnail...").toList }
  | .embeddingMetadata => { s with currentAction := ("📝 Embedding metadata...").toList }
  | .cleanup => { s with currentAction := ("🧹 Cleaning up...").toList }
  | .warning txt =>
      if hasSub (("unavailable videos are hidden").toList) txt then
        { s with playlistInfo := ("⚠️ Some videos unavailable - ").toList ++ txt }
      else s
  | .error =>
      { s with currentAction := ("❌ Error occurred").toList
               statusMessage := ("❌ Error during download").toList }
  | .unrecognized => s

/-- Fold a whole event sequence into a snapshot. -/
def reduceAll (s : Snapshot) (evs : List Event) : Snapshot := evs.foldl reduce s

/-- The application state around the snapshot: the flags and button
states of the MusicDownloader app, its log, and a count of the processes
spawned so far (to express that failed attempts are not retried). -/
structure AppState : Type where
  isDownloading : Bool
  isPaused : Bool
  hasProcess : Bool
  pauseDisabled : Bool
  pauseLabel : Line
  downloadDisabled : Bool
  spawnCount : Nat
  snap : Snapshot
  log : List Line
deriving DecidableEq

/-- The state of the app when it starts: no download, no process, pause
disabled, download enabled. -/
def initialAppState : AppState :=
  { isDownloading := false
    isPaused := false
    hasProcess := false
    pauseDisabled := true
    pauseLabel := ("Pause").toList
    downloadDisabled := false
    spawnCount := 0
    snap := Snapshot.init
    log := [] }

/-- action_pause_resume (src/app/main.py lines 340-370).  sigOk tells
whether send_signal succeeds; err is the exception text when it fails. -/
def action_pause_resume (st : AppState) (sigOk : Bool) (err : Line) : AppState :=
  if !st.isDownloading || !st.hasProcess then st
  else if st.isPaused then
    if sigOk then
      { st with isPaused := false
                pauseLabel := ("Pause").toList
                snap := { st.snap with
                  statusMessage := ("▶️ Resumed").toList
                  currentAction := ("▶️ Download resumed").toList }
                log := st.log ++ [("Download resumed").toList] }
    else { st with log := st.log ++ [("Error resuming: ").toList ++ err] }
  else
    if sigOk then
      { st with isPaused := true
                pauseLabel := ("Resume").toList
                snap := { st.snap with
                  statusMessage := ("⏸️ Paused").toList
                  currentAction := ("⏸️ Download paused").toList }
                log := st.log ++ [("Download paused").toList] }
    else { st with log := st.log ++ [("Error pausing: ").toList ++ err] }

/-- Environment facts the app reads from the system: the home Music
directory and the behaviour of os.path.expanduser. -/
structure Env : Type where
  homeMusic : Line
  expandUser : Line → Line

/-- The yt-dlp output template appended to the output directory. -/
def outputTemplateSuffix : Line :=
  ("/%(uploader)s/%(playlist)s/%(playlist_index)s - %(title)s.%(ext)s").toList

/-- action_download (src/app/main.py lines 382-448): the concurrency
guard, the URL check, command construction and the state changes before
the worker thread starts.  The second component is the command spawned,
none when no process is started. -/
def action_download (env : Env) (st : AppState) (url outDir fmt quality : Line) :
    AppState × Option (List Line) :=
  if st.isDownloading then
    ({ st with snap := { st.snap with statusMessage := ("⚠️ Download already in progress").toList }
               log := st.log ++ [("ERROR: A download is already in progress").toList] }, none)
  else
    let url2 := stripL url
    let out2 := stripL outDir
    let q2 := stripL quality
    if url2 = [] then
      ({ st with snap := { st.snap with statusMessage := ("❌ Error: URL is required").toList }
                 log := st.log ++ [("ERROR: Please enter a URL").toList] }, none)
    else
      let out3 := env.expandUser (if out2 = [] then env.homeMusic else out2)
      let cmd : List Line :=
        [("yt-dlp").toList, ("-x").toList,
         ("--audio-format").toList, fmt,
         ("--audio-quality").toList, q2,
         ("--embed-thumbnail").toList, ("--embed-metadata").toList,
         ("-o").toList, out3 ++ outputTemplateSuffix,
         url2]
      ({ st with isDownloading := true
                 isPaused := false
                 pauseDisabled := false
                 pauseLabel := ("Pause").toList
                 downloadDisabled := true
                 snap := { st.snap with statusMessage := ("⏳ Downloading...").toList }
                 log := st.log ++
                   [("Starting download from: ").toList ++ url2,
                    ("Output directory: ").toList ++ out3,
                    ("Format: ").toList ++ fmt ++ (", Quality: ").toList ++ q2,
                    ("Command: ").toList ++ joinSpace cmd,
                    List.replicate 60 '-'] }, some cmd)

/-- reset_buttons, shared by every exit path of run_download. -/
def resetButtons (st : AppState) : AppState :=
  { st with isDownloading := false
            isPaused := false
            pauseDisabled := true
            pauseLabel := ("Pause").toList
            downloadDisabled := false }

/-- One line of the reader loop of run_download: strip, skip blanks, log
the raw line, classify and reduce. -/
def processLine (st : AppState) (raw : Line) : AppState :=
  let line := stripL raw
  if line = [] then st
  else { st with log := st.log ++ [line]
                 snap := reduce st.snap (classify line) }

/-- The end of run_download after wait() returns
(src/app/main.py lines 588-616), for a given exit code. -/
def handleExit (st : AppState) (rc : Int) : AppState :=
  if rc = 0 then
    let st1 := resetButtons st
    let snap1 : Snapshot := { st1.snap with
      currentAction := ("✅ All downloads complete!").toList
      statusMessage := ("✅ Download complete!").toList
      currentFilename := [] }
    let snap2 :=
      if 0 < snap1.progressTotal then
        { snap1 with progressCurrent := snap1.progressTotal
                     playlistInfo := ("✅ Successfully downloaded ").toList ++
                       intChars snap1.progressTotal ++ (" tracks").toList }
      else snap1
    { st1 with snap := snap2
               log := st1.log ++ [List.replicate 60 '='
                 , ("Download completed successfully!").toList] }
  else
    let st1 := resetButtons st
    { st1 with
      snap := { st1.snap with
        currentAction := ("❌ Download failed").toList,
        statusMessage := ("❌ Failed (exit code: ").toList ++ intChars rc ++ (")").toList,
        currentFilename := [] },
      log := st1.log ++ [("ERROR: Download failed with exit code ").toList ++ intChars rc] }

/-- The FileNotFoundError handler of run_download
(src/app/main.py lines 618-634). -/
def handleNotFound (st : AppState) : AppState :=
  let st1 := resetButtons st
  { st1 with
    snap := { st1.snap with
      currentAction := ("❌ yt-dlp not found").toList,
      statusMessage := ("❌ yt-dlp not found").toList,
      currentFilename := [] },
    log := st1.log ++
      [("ERROR: yt-dlp not found. Please install it:").toList,
       ("  pip install yt-dlp").toList,
       ("  or: sudo pacman -S yt-dlp").toList] }

/-- The generic exception handler of run_download
(src/app/main.py lines 635-649). -/
def handleOtherError (st : AppState) (msg : Line) : AppState :=
  let st1 := resetButtons st
  { st1 with
    snap := { st1.snap with
      currentAction := ("❌ Error: ").toList ++ msg,
      statusMessage := ("❌ Error: ").toList ++ msg,
      currentFilename := [] },
    log := st1.log ++ [("ERROR: ").toList ++ msg] }

/-- Outcome of trying to spawn the child process. -/
inductive SpawnResult : Type
  | ok (outputLines : List Line) (exitCode : Int)
  | notFound
  | otherError (msg : Line)

/-- run_download as a whole: spawn, stream every output line through the
parser, wait, and handle the exit or the spawn failure. -/
def run_download (st : AppState) (res : SpawnResult) : AppState :=
  match res with
  | .ok outputLines rc =>
      let st1 := { st with hasProcess := true, spawnCount := st.spawnCount + 1 }
      handleExit (outputLines.foldl processLine st1) rc
  | .notFound => handleNotFound st
  | .otherError msg => handleOtherError st msg

/-- seenAfter tracks, along an event list, whether an ItemProgress event
has occurred (the only assignment to current_item). -/
def seenAfter (seen : Bool) : Event → Bool
  | .itemProgress _ _ => true
  | _ => seen

/-- Well-formed event sequences: every ItemProgress index lies between 1
and its total, every ItemPercent is between 0 and 100 and comes after
some ItemProgress, and PlaylistItemCount events all come before the
first ItemProgress. -/
def WF (seen : Bool) : List Event → Prop
  | [] => True
  | .itemProgress i t :: rest => 1 ≤ i ∧ i ≤ t ∧ WF true rest
  | .itemPercent p :: rest => 0 ≤ p ∧ p ≤ 100 ∧ seen = true ∧ WF seen rest
  | .playlistItemCount _ _ :: rest => seen = false ∧ WF seen rest
  | _ :: rest => WF seen rest

/-- The inductive invariant for C1: the progress counters are in range,
and currentItem is 0 before the first ItemProgress and between 1 and
progressTotal afterwards. -/
def SInv (seen : Bool) (s : Snapshot) : Prop :=
  0 ≤ s.progressTotal ∧ 0 ≤ s.progressCurrent ∧
    s.progressCurrent ≤ max s.progressTotal 1 ∧
    (if seen then 1 ≤ s.currentItem ∧ (s.currentItem : Int) ≤ s.progressTotal
     else s.currentItem = 0)

/-- Rule 1 of the chain: the substring check for Extracting URL:. -/
def ruleExtractingUrl (l : Line) : Option Event :=
  if hasSub (("Extracting URL:").toList) l then some .extractingUrl else none

/-- Rule 2: the YouTube Music redirect notice. -/
def ruleRedirect (l : Line) : Option Event :=
  if hasSub (("YouTube Music is not directly supported").toList) l then some .redirect else none

/-- Rule 3: Downloading webpage or Downloading API JSON. -/
def ruleFetching (l : Line) : Option Event :=
  if (hasSub (("Downloading webpage").toList) l || hasSub (("Downloading API JSON").toList) l) then some .fetchingPlaylistData else none

/-- Rule 4: Downloading playlist: name. -/
def rulePlaylistFound (l : Line) : Option Event := (playlistNameOf l).map Event.playlistFound

/-- Rule 5: Downloading N items of M. -/
def ruleItemCount (l : Line) : Option Event :=
  (searchO itemCountAt l).map (fun v => Event.playlistItemCount v.1 v.2)

/-- Rule 6: Downloading item I of T. -/
def ruleItemProg (l : Line) : Option Event :=
  (searchO itemProgAt l).map (fun v => Event.itemProgress v.1 v.2)

/-- Rule 7 of the implemented chain, with no counterpart in the
specification: the per-video extraction marker. -/
def ruleTrackInfo (l : Line) : Option Event :=
  if searchB extractingTrackAt l then some Event.extractingTrackInfo else none

/-- Rule 8 of the implemented chain, with no counterpart in the
specification: the video id marker, whose branch body is empty. -/
def ruleVideoId (l : Line) : Option Event :=
  if searchB videoIdAt l then some Event.videoId else none

/-- Rule 9: the download Destination line. -/
def ruleDest (l : Line) : Option Event :=
  (dlDestOf l).map (fun fp => Event.destinationFile (stemOf fp))

/-- Rule 10: the download percent line. -/
def rulePercent (l : Line) : Option Event := (searchO percentAt l).map Event.itemPercent

/-- Rule 11: has already been downloaded. -/
def ruleAlready (l : Line) : Option Event :=
  if (hasSub (("[download]").toList) l && hasSub (("has already been downloaded").toList) l) then some .alreadyDownloaded else none

/-- Rule 12: the ExtractAudio postprocessor marker. -/
def ruleConvert (l : Line) : Option Event :=
  if hasSub (("[ExtractAudio]").toList) l then some (Event.convertingAudio ((destOf l).map stemOf)) else none

/-- Rule 13: the EmbedThumbnail marker. -/
def ruleThumb (l : Line) : Option Event :=
  if hasSub (("[EmbedThumbnail]").toList) l then some Event.embeddingThumbnail else none

/-- Rule 14: the Metadata marker. -/
def ruleMeta (l : Line) : Option Event :=
  if (hasSub (("[Metadata]").toList) l || hasSub (("Adding metadata").toList) l) then some Event.embeddingMetadata else none

/-- Rule 15: Deleting original file. -/
def ruleCleanup (l : Line) : Option Event :=
  if hasSub (("Deleting original file").toList) l then some Event.cleanup else none

/-- Rule 16: the WARNING: marker. -/
def ruleWarning (l : Line) : Option Event :=
  if hasSub (("WARNING:").toList) l then some (Event.warning (warningMsgOf l)) else none

/-- Rule 17: the ERROR: marker. -/
def ruleErr (l : Line) : Option Event :=
  if hasSub (("ERROR:").toList) l then some Event.error else none

/-- The ordered rule list of the classifier: the rules of section 4.1 of
the specification in their priority order, with the two extra branches
of the implementation (ruleTrackInfo, ruleVideoId) kept at their place
in the chain. -/
def rules : List (Line → Option Event) :=
  [ruleExtractingUrl, ruleRedirect, ruleFetching, rulePlaylistFound, ruleItemCount,
   ruleItemProg, ruleTrackInfo, ruleVideoId, ruleDest, rulePercent, ruleAlready,
   ruleConvert, ruleThumb, ruleMeta, ruleCleanup, ruleWarning, ruleErr]

/-- First-match semantics over an ordered rule list, defaulting to
Unrecognized. -/
def firstMatch : List (Line → Option Event) → Line → Event
  | [], _ => .unrecognized
  | r :: rs, l =>
    match r l with
    | some e => e
    | none => firstMatch rs l

/-- The classifier chain with the dead extractingTrackInfo branch
removed, for the refinement statement of C10. -/
def classifyNoTrackInfo (line : Line) : Event :=
  if hasSub (("Extracting URL:").toList) line then .extractingUrl
  else if hasSub (("YouTube Music is not directly supported").toList) line then .redirect
  else if (hasSub (("Downloading webpage").toList) line || hasSub (("Downloading API JSON").toList) line) then .fetchingPlaylistData
  else match playlistNameOf line with
  | some nm => .playlistFound nm
  | none =>
  match searchO itemCountAt line with
  | some v => .playlistItemCount v.1 v.2
  | none =>
  match searchO itemProgAt line with
  | some v => .itemProgress v.1 v.2
  | none =>
  if searchB videoIdAt line then .videoId
  else match dlDestOf line with
  | some fp => .destinationFile (stemOf fp)
  | none =>
  match searchO percentAt line with
  | some p => .itemPercent p
  | none =>
  if (hasSub (("[download]").toList) line && hasSub (("has already been downloaded").toList) line) then .alreadyDownloaded
  else if hasSub (("[ExtractAudio]").toList) line then .convertingAudio ((destOf line).map stemOf)
  else if hasSub (("[EmbedThumbnail]").toList) line then .embeddingThumbnail
  else if (hasSub (("[Metadata]").toList) line || hasSub (("Adding metadata").toList) line) then .embeddingMetadata
  else if hasSub (("Deleting original file").toList) line then .cleanup
  else if hasSub (("WARNING:").toList) line then .warning (warningMsgOf line)
  else if hasSub (("ERROR:").toList) line then .error
  else .unrecognized

/-- A snapshot as it stands after ItemProgress 3 of 10. -/
def sampleSnapshot : Snapshot :=
  { Snapshot.init with currentItem := 3, progressCurrent := 2, progressTotal := 10 }

/-- The app state while a download is running. -/
def runningAppState : AppState :=
  { initialAppState with
    isDownloading := true
    hasProcess := true
    pauseDisabled := false
    downloadDisabled := true }

/-- A concrete environment for witnesses. -/
def envDefault : Env := { homeMusic := ("~/Music").toList, expandUser := fun l => l }

end Ytmdl

namespace Ytmdl

/-- ratFloor agrees with the Mathlib floor on rationals. -/
theorem ratFloor_eq (q : ℚ) : ratFloor q = ⌊q⌋ := (Rat.floor_def).symm

/-- ratCeil agrees with the Mathlib ceiling. -/
theorem ratCeil_eq (q : ℚ) : ratCeil q = ⌈q⌉ := by
  rw [ratCeil, ratFloor_eq, Int.floor_neg, neg_neg]

/-- On nonnegative rationals, Python int() truncation is the floor. -/
theorem pyInt_of_nonneg {q : ℚ} (h : 0 ≤ q) : pyInt q = ⌊q⌋ := by
  rw [pyInt, if_pos h, ratFloor_eq]

/-- Python int() truncation is the identity on integers. -/
theorem pyInt_intCast (z : Int) : pyInt (z : ℚ) = z := by
  by_cases h : (0 : ℚ) ≤ (z : ℚ)
  · rw [pyInt_of_nonneg h, Int.floor_intCast]
  · rw [pyInt, if_neg h, ratCeil_eq, Int.ceil_intCast]

/-- A list is a prefix of itself followed by anything. -/
theorem prefixOf_append (a b : List Char) : a.isPrefixOf (a ++ b) = true := by
  induction a with
  | nil => simp [List.isPrefixOf]
  | cons c a ih => simp [List.isPrefixOf, ih]

/-- A Boolean prefix yields an append decomposition. -/
theorem prefixOf_exists {a s : List Char} (h : a.isPrefixOf s = true) :
    ∃ t, s = a ++ t := by
  induction a generalizing s with
  | nil => exact ⟨s, rfl⟩
  | cons c a ih =>
    cases s with
    | nil => simp [List.isPrefixOf] at h
    | cons x rest =>
      simp only [List.isPrefixOf, Bool.and_eq_true, beq_iff_eq] at h
      obtain ⟨t, rfl⟩ := ih h.2
      exact ⟨t, by simp [h.1]⟩

/-- A prefix is in particular a substring. -/
theorem hasSub_of_pre {a s : List Char} (h : a.isPrefixOf s = true) :
    hasSub a s = true := by
  cases s with
  | nil =>
    cases a with
    | nil => rfl
    | cons c t => simp [List.isPrefixOf] at h
  | cons x rest => simp [hasSub, h]

/-- The middle part of an append decomposition is a substring. -/
theorem hasSub_of_append (u pat v : List Char) : hasSub pat (u ++ (pat ++ v)) = true := by
  induction u with
  | nil => simpa using hasSub_of_pre (prefixOf_append pat v)
  | cons c u ih => simp [hasSub, ih]

/-- A successful positional search yields a split of the line. -/
theorem searchB_split {f : List Char → Bool} {l : List Char} (h : searchB f l = true) :
    ∃ u t, l = u ++ t ∧ f t = true := by
  induction l with
  | nil => exact ⟨[], [], rfl, h⟩
  | cons c rest ih =>
    rcases Bool.or_eq_true_iff.mp h with hc | hr
    · exact ⟨[], c :: rest, rfl, hc⟩
    · obtain ⟨u, t, rfl, ht⟩ := ih hr
      exact ⟨c :: u, t, rfl, ht⟩

/-- dropPre succeeds only on an actual prefix. -/
theorem dropPre_eq_some {pat s r : List Char} (h : dropPre pat s = some r) :
    pat.isPrefixOf s = true := by
  unfold dropPre at h
  split at h
  · assumption
  · exact absurd h (by simp)

/-- The per-video extraction matcher requires its full literal prefix. -/
theorem extractingTrackAt_pre {t : Line} (h : extractingTrackAt t = true) :
    (("[youtube] Extracting URL: https://").toList).isPrefixOf t = true := by
  unfold extractingTrackAt at h
  cases hd : dropPre (("[youtube] Extracting URL: https://").toList) t with
  | none => rw [hd] at h; simp at h
  | some r => exact dropPre_eq_some hd

/-- Any line matched by the per-video extraction pattern contains the
Extracting URL: marker, so rule 1 already catches it. -/
theorem searchTrack_extracting {l : Line} (h : searchB extractingTrackAt l = true) :
    hasSub (("Extracting URL:").toList) l = true := by
  obtain ⟨u, t, rfl, ht⟩ := searchB_split h
  obtain ⟨w, hw⟩ := prefixOf_exists (extractingTrackAt_pre ht)
  rw [hw]
  have hsplit : (("[youtube] Extracting URL: https://").toList) ++ w =
      (("[youtube] ").toList) ++ ((("Extracting URL:").toList) ++ ((" https://").toList ++ w)) := by
    simp [List.append_assoc]
  rw [hsplit]
  simpa [List.append_assoc] using
    hasSub_of_append (u ++ (("[youtube] ").toList) ) (("Extracting URL:").toList) (((" https://").toList) ++ w)

/-- The implemented elif chain is exactly first-match semantics over the
ordered rule list. -/
theorem classify_eq_firstMatch (l : Line) : classify l = firstMatch rules l := by
  cases h1 : hasSub (("Extracting URL:").toList) l with
  | true => simp only [classify, rules, firstMatch, ruleExtractingUrl, ruleRedirect, ruleFetching, rulePlaylistFound, ruleItemCount, ruleItemProg, ruleTrackInfo, ruleVideoId, ruleDest, rulePercent, ruleAlready, ruleConvert, ruleThumb, ruleMeta, ruleCleanup, ruleWarning, ruleErr, Option.map_some', Option.map_none', eq_self_iff_true, Bool.false_eq_true, if_true, if_false, h1]
  | false =>
  cases h2 : hasSub (("YouTube Music is not directly supported").toList) l with
  | true => simp only [classify, rules, firstMatch, ruleExtractingUrl, ruleRedirect, ruleFetching, rulePlaylistFound, ruleItemCount, ruleItemProg, ruleTrackInfo, ruleVideoId, ruleDest, rulePercent, ruleAlready, ruleConvert, ruleThumb, ruleMeta, ruleCleanup, ruleWarning, ruleErr, Option.map_some', Option.map_none', eq_self_iff_true, Bool.false_eq_true, if_true, if_false, h1, h2]
  | false =>
  cases h3 : (hasSub (("Downloading webpage").toList) l || hasSub (("Downloading API JSON").toList) l) with
  | true => simp only [classify, rules, firstMatch, ruleExtractingUrl, ruleRedirect, ruleFetching, rulePlaylistFound, ruleItemCount, ruleItemProg, ruleTrackInfo, ruleVideoId, ruleDest, rulePercent, ruleAlready, ruleConvert, ruleThumb, ruleMeta, ruleCleanup, ruleWarning, ruleErr, Option.map_some', Option.map_none', eq_self_iff_true, Bool.false_eq_true, if_true, if_false, h1, h2, h3]
  | false =>
  cases h4 : playlistNameOf l with
  | some v => simp only [classify, rules, firstMatch, ruleExtractingUrl, ruleRedirect, ruleFetching, rulePlaylistFound, ruleItemCount, ruleItemProg, ruleTrackInfo, ruleVideoId, ruleDest, rulePercent, ruleAlready, ruleConvert, ruleThumb, ruleMeta, ruleCleanup, ruleWarning, ruleErr, Option.map_some', Option.map_none', eq_self_iff_true, Bool.false_eq_true, if_true, if_false, h1, h2, h3, h4]
  | none =>
  cases h5 : searchO itemCountAt l with
  | some v => simp only [classify, rules, firstMatch, ruleExtractingUrl, ruleRedirect, ruleFetching, rulePlaylistFound, ruleItemCount, ruleItemProg, ruleTrackInfo, ruleVideoId, ruleDest, rulePercent, ruleAlready, ruleConvert, ruleThumb, ruleMeta, ruleCleanup, ruleWarning, ruleErr, Option.map_some', Option.map_none', eq_self_iff_true, Bool.false_eq_true, if_true, if_false, h1, h2, h3, h4, h5]
  | none =>
  cases h6 : searchO itemProgAt l with
  | some v => simp only [classify, rules, firstMatch, ruleExtractingUrl, ruleRedirect, ruleFetching, rulePlaylistFound, ruleItemCount, ruleItemProg, ruleTrackInfo, ruleVideoId, ruleDest, rulePercent, ruleAlready, ruleConvert, ruleThumb, ruleMeta, ruleCleanup, ruleWarning, ruleErr, Option.map_some', Option.map_none', eq_self_iff_true, Bool.false_eq_true, if_true, if_false, h1, h2, h3, h4, h5, h6]
  | none =>
  cases h7 : searchB extractingTrackAt l with
  | true => simp only [classify, rules, firstMatch, ruleExtractingUrl, ruleRedirect, ruleFetching, rulePlaylistFound, ruleItemCount, ruleItemProg, ruleTrackInfo, ruleVideoId, ruleDest, rulePercent, ruleAlready, ruleConvert, ruleThumb, ruleMeta, ruleCleanup, ruleWarning, ruleErr, Option.map_some', Option.map_none', eq_self_iff_true, Bool.false_eq_true, if_true, if_false, h1, h2, h3, h4, h5, h6, h7]
  | false =>
  cases h8 : searchB videoIdAt l with
  | true => simp only [classify, rules, firstMatch, ruleExtractingUrl, ruleRedirect, ruleFetching, rulePlaylistFound, ruleItemCount, ruleItemProg, ruleTrackInfo, ruleVideoId, ruleDest, rulePercent, ruleAlready, ruleConvert, ruleThumb, ruleMeta, ruleCleanup, ruleWarning, ruleErr, Option.map_some', Option.map_none', eq_self_iff_true, Bool.false_eq_true, if_true, if_false, h1, h2, h3, h4, h5, h6, h7, h8]
  | false =>
  cases h9 : dlDestOf l with
  | some v => simp only [classify, rules, firstMatch, ruleExtractingUrl, ruleRedirect, ruleFetching, rulePlaylistFound, ruleItemCount, ruleItemProg, ruleTrackInfo, ruleVideoId, ruleDest, rulePercent, ruleAlready, ruleConvert, ruleThumb, ruleMeta, ruleCleanup, ruleWarning, ruleErr, Option.map_some', Option.map_none', eq_self_iff_true, Bool.false_eq_true, if_true, if_false, h1, h2, h3, h4, h5, h6, h7, h8, h9]
  | none =>
  cases h10 : searchO percentAt l with
  | some v => simp only [classify, rules, firstMatch, ruleExtractingUrl, ruleRedirect, ruleFetching, rulePlaylistFound, ruleItemCount, ruleItemProg, ruleTrackInfo, ruleVideoId, ruleDest, rulePercent, ruleAlready, ruleConvert, ruleThumb, ruleMeta, ruleCleanup, ruleWarning, ruleErr, Option.map_some', Option.map_none', eq_self_iff_true, Bool.false_eq_true, if_true, if_false, h1, h2, h3, h4, h5, h6, h7, h8, h9, h10]
  | none =>
  cases h11 : (hasSub (("[download]").toList) l && hasSub (("has already been downloaded").toList) l) with
  | true => simp only [classify, rules, firstMatch, ruleExtractingUrl, ruleRedirect, ruleFetching, rulePlaylistFound, ruleItemCount, ruleItemProg, ruleTrackInfo, ruleVideoId, ruleDest, rulePercent, ruleAlready, ruleConvert, ruleThumb, ruleMeta, ruleCleanup, ruleWarning, ruleErr, Option.map_some', Option.map_none', eq_self_iff_true, Bool.false_eq_true, if_true, if_false, h1, h2, h3, h4, h5, h6, h7, h8, h9, h10, h11]
  | false =>
  cases h12 : hasSub (("[ExtractAudio]").toList) l with
  | true => simp only [classify, rules, firstMatch, ruleExtractingUrl, ruleRedirect, ruleFetching, rulePlaylistFound, ruleItemCount, ruleItemProg, ruleTrackInfo, ruleVideoId, ruleDest, rulePercent, ruleAlready, ruleConvert, ruleThumb, ruleMeta, ruleCleanup, ruleWarning, ruleErr, Option.map_some', Option.map_none', eq_self_iff_true, Bool.false_eq_true, if_true, if_false, h1, h2, h3, h4, h5, h6, h7, h8, h9, h10, h11, h12]
  | false =>
  cases h13 : hasSub (("[EmbedThumbnail]").toList) l with
  | true => simp only [classify, rules, firstMatch, ruleExtractingUrl, ruleRedirect, ruleFetching, rulePlaylistFound, ruleItemCount, ruleItemProg, ruleTrackInfo, ruleVideoId, ruleDest, rulePercent, ruleAlready, ruleConvert, ruleThumb, ruleMeta, ruleCleanup, ruleWarning, ruleErr, Option.map_some', Option.map_none', eq_self_iff_true, Bool.false_eq_true, if_true, if_false, h1, h2, h3, h4, h5, h6, h7, h8, h9, h10, h11, h12, h13]
  | false =>
  cases h14 : (hasSub (("[Metadata]").toList) l || hasSub (("Adding metadata").toList) l) with
  | true => simp only [classify, rules, firstMatch, ruleExtractingUrl, ruleRedirect, ruleFetching, rulePlaylistFound, ruleItemCount, ruleItemProg, ruleTrackInfo, ruleVideoId, ruleDest, rulePercent, ruleAlready, ruleConvert, ruleThumb, ruleMeta, ruleCleanup, ruleWarning, ruleErr, Option.map_some', Option.map_none', eq_self_iff_true, Bool.false_eq_true, if_true, if_false, h1, h2, h3, h4, h5, h6, h7, h8, h9, h10, h11, h12, h13, h14]
  | false =>
  cases h15 : hasSub (("Deleting original file").toList) l with
  | true => simp only [classify, rules, firstMatch, ruleExtractingUrl, ruleRedirect, ruleFetching, rulePlaylistFound, ruleItemCount, ruleItemProg, ruleTrackInfo, ruleVideoId, ruleDest, rulePercent, ruleAlready, ruleConvert, ruleThumb, ruleMeta, ruleCleanup, ruleWarning, ruleErr, Option.map_some', Option.map_none', eq_self_iff_true, Bool.false_eq_true, if_true, if_false, h1, h2, h3, h4, h5, h6, h7, h8, h9, h10, h11, h12, h13, h14, h15]
  | false =>
  cases h16 : hasSub (("WARNING:").toList) l with
  | true => simp only [classify, rules, firstMatch, ruleExtractingUrl, ruleRedirect, ruleFetching, rulePlaylistFound, ruleItemCount, ruleItemProg, ruleTrackInfo, ruleVideoId, ruleDest, rulePercent, ruleAlready, ruleConvert, ruleThumb, ruleMeta, ruleCleanup, ruleWarning, ruleErr, Option.map_some', Option.map_none', eq_self_iff_true, Bool.false_eq_true, if_true, if_false, h1, h2, h3, h4, h5, h6, h7, h8, h9, h10, h11, h12, h13, h14, h15, h16]
  | false =>
  cases h17 : hasSub (("ERROR:").toList) l with
  | true => simp only [classify, rules, firstMatch, ruleExtractingUrl, ruleRedirect, ruleFetching, rulePlaylistFound, ruleItemCount, ruleItemProg, ruleTrackInfo, ruleVideoId, ruleDest, rulePercent, ruleAlready, ruleConvert, ruleThumb, ruleMeta, ruleCleanup, ruleWarning, ruleErr, Option.map_some', Option.map_none', eq_self_iff_true, Bool.false_eq_true, if_true, if_false, h1, h2, h3, h4, h5, h6, h7, h8, h9, h10, h11, h12, h13, h14, h15, h16, h17]
  | false =>
  simp only [classify, rules, firstMatch, ruleExtractingUrl, ruleRedirect, ruleFetching, rulePlaylistFound, ruleItemCount, ruleItemProg, ruleTrackInfo, ruleVideoId, ruleDest, rulePercent, ruleAlready, ruleConvert, ruleThumb, ruleMeta, ruleCleanup, ruleWarning, ruleErr, Option.map_some', Option.map_none', eq_self_iff_true, Bool.false_eq_true, if_true, if_false, h1, h2, h3, h4, h5, h6, h7, h8, h9, h10, h11, h12, h13, h14, h15, h16, h17]

/-- When no rule matches, first-match semantics defaults to Unrecognized. -/
theorem firstMatch_none {rs : List (Line → Option Event)} {l : Line}
    (h : ∀ r ∈ rs, r l = none) : firstMatch rs l = Event.unrecognized := by
  induction rs with
  | nil => rfl
  | cons r rest ih =>
    have hr : r l = none := h r (List.mem_cons_self r rest)
    simp only [firstMatch, hr]
    exact ih (fun r2 h2 => h r2 (List.mem_cons_of_mem r h2))

/-- No reduction step makes progressTotal negative. -/
theorem reduce_total_nonneg (s : Snapshot) (e : Event) (h : 0 ≤ s.progressTotal) :
    0 ≤ (reduce s e).progressTotal := by
  cases e <;> simp [reduce] <;> try exact h
  all_goals (split <;> simp [h])

/-- SInv only depends on the progress counters and currentItem. -/
theorem sinv_of_fields {seen : Bool} {s s2 : Snapshot} (h : SInv seen s)
    (h1 : s2.progressTotal = s.progressTotal) (h2 : s2.progressCurrent = s.progressCurrent)
    (h3 : s2.currentItem = s.currentItem) : SInv seen s2 := by
  obtain ⟨a, b, c, d⟩ := h
  refine ⟨h1 ▸ a, h2 ▸ b, by rw [h1, h2]; exact c, ?_⟩
  cases seen with
  | false =>
    have d2 : s.currentItem = 0 := d
    show s2.currentItem = 0
    rw [h3]; exact d2
  | true =>
    have d2 : 1 ≤ s.currentItem ∧ (s.currentItem : Int) ≤ s.progressTotal := d
    show 1 ≤ s2.currentItem ∧ (s2.currentItem : Int) ≤ s2.progressTotal
    exact ⟨h3 ▸ d2.1, by rw [h3, h1]; exact d2.2⟩

/-- One well-formed reduction step preserves the invariant. -/
theorem reduce_sinv {seen : Bool} {s : Snapshot} {e : Event}
    (hs : SInv seen s) (he : WF seen [e]) :
    SInv (seenAfter seen e) (reduce s e) := by
  cases e with
  | playlistItemCount a t =>
    obtain ⟨hsf, -⟩ := he
    subst hsf
    obtain ⟨ht0, hc0, hcm, hseen⟩ := hs
    have hci : s.currentItem = 0 := hseen
    refine ⟨?_, ?_, ?_, ?_⟩
    · simp [reduce]
    · simp [reduce]
    · simp only [reduce]
      exact le_trans zero_le_one (le_max_right _ _)
    · show ({ s with playlistInfo := itemsInfo a t, progressCurrent := 0, progressTotal := (a : Int) } : Snapshot).currentItem = 0
      exact hci
  | itemProgress i t =>
    obtain ⟨h1i, hit, -⟩ := he
    refine ⟨?_, ?_, ?_, ?_⟩
    · simp [reduce]
    · simp only [reduce]
      have : (1 : Int) ≤ (i : Int) := by exact_mod_cast h1i
      omega
    · simp only [reduce]
      have h1 : (i : Int) ≤ (t : Int) := by exact_mod_cast hit
      have h2 : (t : Int) ≤ max (t : Int) 1 := le_max_left _ _
      omega
    · simp only [reduce, seenAfter, if_true]
      exact ⟨h1i, by exact_mod_cast hit⟩
  | itemPercent p =>
    obtain ⟨hp0, hp100, hseq, -⟩ := he
    subst hseq
    obtain ⟨ht0, hc0, hcm, hseen⟩ := hs
    have hseen2 : 1 ≤ s.currentItem ∧ (s.currentItem : Int) ≤ s.progressTotal := hseen
    obtain ⟨hc1, hcT⟩ := hseen2
    by_cases htot : 0 < s.progressTotal
    · have hred : reduce s (Event.itemPercent p) =
          { s with progressCurrent := pyInt (((s.currentItem : ℚ) - 1) + p / 100) } := by
        simp [reduce, htot]
      have hc1q : (1 : ℚ) ≤ (s.currentItem : ℚ) := by exact_mod_cast hc1
      have hq0 : (0 : ℚ) ≤ (s.currentItem : ℚ) - 1 + p / 100 := by
        have : (0 : ℚ) ≤ p / 100 := div_nonneg hp0 (by norm_num)
        linarith
      have hfl := pyInt_of_nonneg hq0
      have hqT : (s.currentItem : ℚ) - 1 + p / 100 ≤ ((s.progressTotal : Int) : ℚ) := by
        have hp1 : p / 100 ≤ 1 := (div_le_one (by norm_num : (0:ℚ) < 100)).mpr hp100
        have hcq : (s.currentItem : ℚ) ≤ ((s.progressTotal : Int) : ℚ) := by exact_mod_cast hcT
        linarith
      refine ⟨?_, ?_, ?_, ?_⟩ <;> rw [hred]
      · exact ht0
      · show (0 : Int) ≤ pyInt (((s.currentItem : ℚ) - 1) + p / 100)
        rw [hfl]
        exact Int.le_floor.mpr (by push_cast; linarith)
      · show pyInt (((s.currentItem : ℚ) - 1) + p / 100) ≤ max s.progressTotal 1
        rw [hfl]
        have hfT : ⌊(s.currentItem : ℚ) - 1 + p / 100⌋ ≤ s.progressTotal := by
          have := Int.floor_le_floor hqT
          rwa [Int.floor_intCast] at this
        exact le_trans hfT (le_max_left _ _)
      · exact show 1 ≤ s.currentItem ∧ (s.currentItem : Int) ≤ s.progressTotal from ⟨hc1, hcT⟩
    · have hr : reduce s (Event.itemPercent p) = s := by simp [reduce, htot]
      rw [hr]
      exact ⟨ht0, hc0, hcm, show 1 ≤ s.currentItem ∧ (s.currentItem : Int) ≤ s.progressTotal from ⟨hc1, hcT⟩⟩
  | alreadyDownloaded =>
    refine sinv_of_fields hs ?_ ?_ ?_ <;> (simp only [reduce]; split <;> rfl)
  | warning txt =>
    refine sinv_of_fields hs ?_ ?_ ?_ <;> (simp only [reduce]; split <;> rfl)
  | extractingUrl => exact sinv_of_fields hs (by simp [reduce]) (by simp [reduce]) (by simp [reduce])
  | redirect => exact sinv_of_fields hs (by simp [reduce]) (by simp [reduce]) (by simp [reduce])
  | fetchingPlaylistData => exact sinv_of_fields hs (by simp [reduce]) (by simp [reduce]) (by simp [reduce])
  | playlistFound nm => exact sinv_of_fields hs (by simp [reduce]) (by simp [reduce]) (by simp [reduce])
  | extractingTrackInfo => exact sinv_of_fields hs (by simp [reduce]) (by simp [reduce]) (by simp [reduce])
  | videoId => exact sinv_of_fields hs (by simp [reduce]) (by simp [reduce]) (by simp [reduce])
  | destinationFile fn => exact sinv_of_fields hs (by simp [reduce]) (by simp [reduce]) (by simp [reduce])
  | convertingAudio fo => exact sinv_of_fields hs (by simp [reduce]) (by simp [reduce]) (by simp [reduce])
  | embeddingThumbnail => exact sinv_of_fields hs (by simp [reduce]) (by simp [reduce]) (by simp [reduce])
  | embeddingMetadata => exact sinv_of_fields hs (by simp [reduce]) (by simp [reduce]) (by simp [reduce])
  | cleanup => exact sinv_of_fields hs (by simp [reduce]) (by simp [reduce]) (by simp [reduce])
  | error => exact sinv_of_fields hs (by simp [reduce]) (by simp [reduce]) (by simp [reduce])
  | unrecognized => exact sinv_of_fields hs (by simp [reduce]) (by simp [reduce]) (by simp [reduce])

/-- Well-formedness of a cons splits into head and tail conditions. -/
theorem WF_cons {seen : Bool} {e : Event} {rest : List Event} (h : WF seen (e :: rest)) :
    WF seen [e] ∧ WF (seenAfter seen e) rest := by
  cases e
  case playlistItemCount a t => exact ⟨⟨h.1, True.intro⟩, h.2⟩
  case itemProgress i t => exact ⟨⟨h.1, h.2.1, True.intro⟩, h.2.2⟩
  case itemPercent p => exact ⟨⟨h.1, h.2.1, h.2.2.1, True.intro⟩, h.2.2.2⟩
  all_goals exact ⟨True.intro, h⟩

/-- Folding a well-formed event sequence preserves the invariant. -/
theorem reduceAll_sinv (evs : List Event) {seen : Bool} {s : Snapshot}
    (hs : SInv seen s) (h : WF seen evs) :
    ∃ seen2, SInv seen2 (reduceAll s evs) := by
  induction evs generalizing seen s with
  | nil => exact ⟨seen, hs⟩
  | cons e rest ih =>
    obtain ⟨he, hrest⟩ := WF_cons h
    exact ih (reduce_sinv hs he) hrest

/-- Every prefix of a well-formed sequence is well formed. -/
theorem WF_take {evs : List Event} {seen : Bool} (n : Nat) (h : WF seen evs) :
    WF seen (evs.take n) := by
  induction evs generalizing seen n with
  | nil => simp [List.take_nil, WF]
  | cons e rest ih =>
    cases n with
    | zero => simp [WF]
    | succ m =>
      obtain ⟨he, hrest⟩ := WF_cons h
      have hr := ih m hrest
      cases e
      case playlistItemCount a t => exact ⟨he.1, hr⟩
      case itemProgress i t => exact ⟨he.1, he.2.1, hr⟩
      case itemPercent p => exact ⟨he.1, he.2.1, he.2.2.1, hr⟩
      all_goals exact hr

/-- The fresh snapshot satisfies the invariant with no ItemProgress seen. -/
theorem init_sinv : SInv false Snapshot.init := by
  refine ⟨le_refl 0, le_refl 0, ?_, rfl⟩
  exact le_trans zero_le_one (le_max_right _ _)

/-- progressTotal stays nonnegative along any event sequence. -/
theorem reduceAll_total_nonneg (evs : List Event) (s : Snapshot) (h : 0 ≤ s.progressTotal) :
    0 ≤ (reduceAll s evs).progressTotal := by
  induction evs generalizing s with
  | nil => exact h
  | cons e rest ih => exact ih _ (reduce_total_nonneg _ _ h)

/-- Claim C1 (amended). For every event sequence reduced into a fresh
Snapshot, after each step progressTotal is nonnegative; and when the
sequence is well formed (every ItemProgress has 1 <= index <= total,
every ItemPercent has percent between 0 and 100 and follows some
ItemProgress, and no PlaylistItemCount follows an ItemProgress), after
each step 0 <= progressCurrent <= max(progressTotal, 1).  The original
monotonicity part of the claim is refuted by C1_progress_counterexample. -/
theorem C1_progress_invariant (evs : List Event) (n : Nat) :
    0 ≤ (reduceAll Snapshot.init (evs.take n)).progressTotal ∧
    (WF false evs →
      0 ≤ (reduceAll Snapshot.init (evs.take n)).progressCurrent ∧
      (reduceAll Snapshot.init (evs.take n)).progressCurrent ≤
        max (reduceAll Snapshot.init (evs.take n)).progressTotal 1) := by
  constructor
  · exact reduceAll_total_nonneg _ _ (le_refl 0)
  · intro hwf
    obtain ⟨seen2, hinv⟩ := reduceAll_sinv (evs.take n) init_sinv (WF_take n hwf)
    exact ⟨hinv.2.1, hinv.2.2.1⟩

/-- Witness for C1: a concrete well-formed sequence on which the
invariant theorem applies. -/
theorem C1_progress_invariant_witness :
    WF false [Event.playlistItemCount 8 10, Event.itemProgress 1 8, Event.itemPercent 50] ∧
    0 ≤ (reduceAll Snapshot.init ([Event.playlistItemCount 8 10, Event.itemProgress 1 8,
      Event.itemPercent 50].take 3)).progressCurrent :=
  ⟨by norm_num [WF], ((C1_progress_invariant _ 3).2 (by norm_num [WF])).1⟩

/-- Counterexample to C1 as stated: after PlaylistItemCount 8 10 then
ItemPercent 0, progressCurrent is -1 < 0; and the positive
progressTotal 8 later decreases to 2 on ItemProgress 1 2. -/
theorem C1_progress_counterexample :
    (reduceAll Snapshot.init [Event.playlistItemCount 8 10, Event.itemPercent 0]).progressCurrent = -1 ∧
    (reduceAll Snapshot.init [Event.playlistItemCount 8 10]).progressTotal = 8 ∧
    (reduceAll Snapshot.init [Event.playlistItemCount 8 10, Event.itemPercent 0,
      Event.itemProgress 1 2]).progressTotal = 2 := by
  refine ⟨?_, by norm_num [reduceAll, reduce, Snapshot.init], by norm_num [reduceAll, reduce, Snapshot.init]⟩
  norm_num [reduceAll, reduce, Snapshot.init]
  rw [show ((-1 : ℚ)) = ((-1 : Int) : ℚ) from by norm_num]
  exact pyInt_intCast (-1)

/-- Claim C2 (amended). When progressTotal > 0, an ItemPercent event sets
progressCurrent to the truncation toward zero of
(lastItemIndex - 1) + percent/100, where lastItemIndex is the most
recent ItemProgress index and defaults to 0 (not 1) before any
ItemProgress; the concrete sequence ItemProgress 3 10 then
ItemPercent 50 still ends with progressCurrent = 2, progressTotal = 10. -/
theorem C2_item_percent (s : Snapshot) (p : ℚ) (h : 0 < s.progressTotal) :
    (reduce s (Event.itemPercent p)).progressCurrent = pyInt (((s.currentItem : ℚ) - 1) + p / 100) ∧
    (∀ (s2 : Snapshot) (i t : Nat), (reduce s2 (Event.itemProgress i t)).currentItem = i) ∧
    (∀ (s2 : Snapshot) (e : Event), (∀ i t, e ≠ Event.itemProgress i t) →
      (reduce s2 e).currentItem = s2.currentItem) ∧
    (reduceAll Snapshot.init [Event.itemProgress 3 10, Event.itemPercent 50]).progressCurrent = 2 ∧
    (reduceAll Snapshot.init [Event.itemProgress 3 10, Event.itemPercent 50]).progressTotal = 10 := by
  refine ⟨by simp [reduce, h], by intro s2 i t; simp [reduce], ?_, ?_,
    by norm_num [reduceAll, reduce, Snapshot.init]⟩
  · intro s2 e hne
    cases e
    case itemProgress i t => exact absurd rfl (hne i t)
    case itemPercent p2 => simp only [reduce]; split <;> rfl
    case alreadyDownloaded => simp only [reduce]; split <;> rfl
    case warning txt => simp only [reduce]; split <;> rfl
    all_goals rfl
  · simp [reduceAll, reduce, Snapshot.init]
    norm_num [pyInt, ratFloor_eq]

/-- Witness for C2: the percent update formula applied at a concrete
snapshot with positive progressTotal. -/
theorem C2_item_percent_witness :
    (0 : Int) < sampleSnapshot.progressTotal ∧
    (reduce sampleSnapshot (Event.itemPercent 50)).progressCurrent =
      pyInt (((sampleSnapshot.currentItem : ℚ) - 1) + 50 / 100) :=
  ⟨by norm_num [sampleSnapshot, Snapshot.init],
   (C2_item_percent sampleSnapshot 50 (by norm_num [sampleSnapshot, Snapshot.init])).1⟩

/-- Counterexample to C2 as stated: with no ItemProgress seen, the code
computes progressCurrent = -1 on ItemPercent 0 while the claimed
formula floor((1 - 1) + 0/100) gives 0. -/
theorem C2_item_percent_counterexample :
    (reduceAll Snapshot.init [Event.playlistItemCount 3 3, Event.itemPercent 0]).progressCurrent = -1 ∧
    (⌊((1 : ℚ) - 1) + 0 / 100⌋ : Int) = 0 := by
  constructor
  · norm_num [reduceAll, reduce, Snapshot.init]
    rw [show ((-1 : ℚ)) = ((-1 : Int) : ℚ) from by norm_num]
    exact pyInt_intCast (-1)
  · norm_num

/-- Claim C3. The classifier is a total function equal to first-match
semantics over the ordered rule list, defaulting to Unrecognized when
no rule matches; and on an Unrecognized line the reduction leaves the
whole Snapshot (action, status and all progress fields) unchanged. -/
theorem C3_classifier_first_rule (l : Line) :
    classify l = firstMatch rules l ∧
    ((∀ r ∈ rules, r l = none) → classify l = Event.unrecognized) ∧
    (∀ s : Snapshot, classify l = Event.unrecognized → reduce s (classify l) = s) := by
  refine ⟨classify_eq_firstMatch l, ?_, ?_⟩
  · intro hall
    rw [classify_eq_firstMatch l]
    exact firstMatch_none hall
  · intro s h
    rw [h]
    rfl

/-- Witness for C3: the line hello world matches no rule, classifies as
Unrecognized, and reduces as the identity. -/
theorem C3_classifier_first_rule_witness :
    (∀ r ∈ rules, r (("hello world").toList) = none) ∧
    classify (("hello world").toList) = Event.unrecognized :=
  ⟨by decide, (C3_classifier_first_rule (("hello world").toList)).2.1 (by decide)⟩

/-- Claim C4 (amended). Calling the pause action when no download is in
progress (is_downloading false or no process handle) is a silent
no-op: the whole app state, Snapshot and log included, is unchanged
and no error is surfaced, contrary to the stated SignalError report. -/
theorem C4_pause_silent_noop (st : AppState) (sigOk : Bool) (err : Line)
    (h : st.isDownloading = false ∨ st.hasProcess = false) :
    action_pause_resume st sigOk err = st := by
  rcases h with h | h <;> simp [action_pause_resume, h]

/-- Witness for C4: pausing in the initial idle state changes nothing. -/
theorem C4_pause_silent_noop_witness :
    initialAppState.isDownloading = false ∧
    action_pause_resume initialAppState false (("boom").toList) = initialAppState :=
  ⟨rfl, C4_pause_silent_noop _ _ _ (Or.inl rfl)⟩

/-- Counterexample to C4 as stated: pausing while idle leaves the state
identical, so no error is reported through the log or the status bar. -/
theorem C4_pause_counterexample :
    action_pause_resume initialAppState true [] = initialAppState ∧
    ¬ ((action_pause_resume initialAppState true []).log.length > initialAppState.log.length ∨
       (action_pause_resume initialAppState true []).snap.statusMessage ≠ initialAppState.snap.statusMessage ∨
       (action_pause_resume initialAppState true []).snap.currentAction ≠ initialAppState.snap.currentAction) := by
  constructor
  · rfl
  · intro hc
    rcases hc with hc | hc | hc
    · exact absurd hc (by decide)
    · exact hc rfl
    · exact hc rfl

/-- Claim C5. An ItemPercent event reduced while progressTotal = 0 leaves
the Snapshot unchanged: the guard protects every progress counter. -/
theorem C5_percent_guard (s : Snapshot) (p : ℚ) (h : s.progressTotal = 0) :
    reduce s (Event.itemPercent p) = s := by
  simp [reduce, h]

/-- Witness for C5: ItemPercent 50 on the fresh snapshot is the identity. -/
theorem C5_percent_guard_witness :
    Snapshot.init.progressTotal = 0 ∧
    reduce Snapshot.init (Event.itemPercent 50) = Snapshot.init :=
  ⟨rfl, C5_percent_guard _ _ rfl⟩

/-- Claim C6. PlaylistItemCount available total sets playlistInfo to the
Items text with the unavailable suffix exactly when
available < total, progressTotal to available and progressCurrent
to 0; in particular 8 of 10 yields Items: 8 available (2 unavailable). -/
theorem C6_playlist_item_count (s : Snapshot) (a t : Nat) :
    (reduce s (Event.playlistItemCount a t)).playlistInfo =
      (("Items: ").toList ++ natChars a ++ (" available").toList ++
        (if a < t then ((" (").toList ++ natChars (t - a) ++ (" unavailable)").toList) else [])) ∧
    (reduce s (Event.playlistItemCount a t)).progressTotal = (a : Int) ∧
    (reduce s (Event.playlistItemCount a t)).progressCurrent = 0 ∧
    (reduce Snapshot.init (Event.playlistItemCount 8 10)).playlistInfo =
      (("Items: 8 available (2 unavailable)").toList) := by
  refine ⟨by simp [reduce, itemsInfo], by simp [reduce], by simp [reduce], by decide⟩

/-- Claim C7. Exit code 0 enters the Completed configuration: completion
status and action messages, progressCurrent forced to progressTotal
when positive, download button re-enabled and pause disabled; a
nonzero exit code enters Failed with the exit code inside the status
message and the same control reset. -/
theorem C7_exit_transitions (st : AppState) (rc : Int) :
    (rc = 0 →
      (handleExit st rc).snap.statusMessage = ("✅ Download complete!").toList ∧
      (handleExit st rc).snap.currentAction = ("✅ All downloads complete!").toList ∧
      (0 < st.snap.progressTotal →
        (handleExit st rc).snap.progressCurrent = (handleExit st rc).snap.progressTotal) ∧
      (handleExit st rc).downloadDisabled = false ∧
      (handleExit st rc).pauseDisabled = true ∧
      (handleExit st rc).isDownloading = false) ∧
    (rc ≠ 0 →
      hasSub (intChars rc) (handleExit st rc).snap.statusMessage = true ∧
      (handleExit st rc).snap.currentAction = ("❌ Download failed").toList ∧
      (handleExit st rc).downloadDisabled = false ∧
      (handleExit st rc).pauseDisabled = true ∧
      (handleExit st rc).isDownloading = false) := by
  constructor
  · intro h
    subst h
    refine ⟨by simp only [handleExit, resetButtons]; norm_num; split <;> rfl,
      by simp only [handleExit, resetButtons]; norm_num; split <;> rfl, ?_,
      by simp [handleExit, resetButtons], by simp [handleExit, resetButtons],
      by simp [handleExit, resetButtons]⟩
    intro hp
    simp [handleExit, resetButtons, hp]
  · intro h
    refine ⟨?_, by simp [handleExit, resetButtons, h], by simp [handleExit, resetButtons, h],
      by simp [handleExit, resetButtons, h], by simp [handleExit, resetButtons, h]⟩
    have hst : (handleExit st rc).snap.statusMessage =
        ("❌ Failed (exit code: ").toList ++ (intChars rc ++ ((")").toList)) := by
      simp [handleExit, resetButtons, h]
    rw [hst]
    exact hasSub_of_append _ _ _

/-- Witness for C7: exit code 2 from a running state shows the failure
action message. -/
theorem C7_exit_transitions_witness :
    (2 : Int) ≠ 0 ∧
    (handleExit runningAppState 2).snap.currentAction = ("❌ Download failed").toList :=
  ⟨by decide, ((C7_exit_transitions runningAppState 2).2 (by decide)).2.1⟩

/-- Claim C8. Starting a download while one is running is rejected: no
command is spawned, the download state, buttons and progress are
unchanged, and a user-facing warning is placed in the status bar and
the log. -/
theorem C8_start_guard (env : Env) (st : AppState) (u o f q : Line)
    (h : st.isDownloading = true) :
    (action_download env st u o f q).2 = none ∧
    (action_download env st u o f q).1.isDownloading = true ∧
    (action_download env st u o f q).1.isPaused = st.isPaused ∧
    (action_download env st u o f q).1.hasProcess = st.hasProcess ∧
    (action_download env st u o f q).1.spawnCount = st.spawnCount ∧
    (action_download env st u o f q).1.pauseDisabled = st.pauseDisabled ∧
    (action_download env st u o f q).1.downloadDisabled = st.downloadDisabled ∧
    (action_download env st u o f q).1.snap.progressCurrent = st.snap.progressCurrent ∧
    (action_download env st u o f q).1.snap.progressTotal = st.snap.progressTotal ∧
    (action_download env st u o f q).1.snap.currentAction = st.snap.currentAction ∧
    (action_download env st u o f q).1.snap.statusMessage = ("⚠️ Download already in progress").toList ∧
    (action_download env st u o f q).1.log = st.log ++ [("ERROR: A download is already in progress").toList] := by
  simp [action_download, h]

/-- Witness for C8: a rejected start from a running state spawns nothing. -/
theorem C8_start_guard_witness :
    runningAppState.isDownloading = true ∧
    (action_download envDefault runningAppState [] [] [] []).2 = none :=
  ⟨rfl, (C8_start_guard envDefault runningAppState [] [] [] [] rfl).1⟩

/-- Claim C9. A spawn failure for a missing executable enters the
NotFound configuration: both action and status show yt-dlp not found,
a remediation log line contains an install instruction, the controls
return to start-enabled pause-disabled, and no further process is
spawned. -/
theorem C9_spawn_not_found (st : AppState) :
    (run_download st SpawnResult.notFound).snap.currentAction = ("❌ yt-dlp not found").toList ∧
    (run_download st SpawnResult.notFound).snap.statusMessage = ("❌ yt-dlp not found").toList ∧
    (∃ m, m ∈ (run_download st SpawnResult.notFound).log ∧ hasSub (("install").toList) m = true) ∧
    (run_download st SpawnResult.notFound).downloadDisabled = false ∧
    (run_download st SpawnResult.notFound).pauseDisabled = true ∧
    (run_download st SpawnResult.notFound).isDownloading = false ∧
    (run_download st SpawnResult.notFound).spawnCount = st.spawnCount := by
  refine ⟨rfl, rfl, ⟨("  pip install yt-dlp").toList, ?_, by decide⟩, rfl, rfl, rfl, rfl⟩
  simp [run_download, handleNotFound, resetButtons]

/-- Claim C10. Every line containing Extracting URL: is classified by the
first rule as ExtractingUrl, so the later per-video extraction branch
is unreachable and the classifier equals the chain with that branch
removed. -/
theorem C10_dead_branch :
    (∀ l : Line, hasSub (("Extracting URL:").toList) l = true → classify l = Event.extractingUrl) ∧
    (∀ l : Line, classify l = classifyNoTrackInfo l) := by
  constructor
  · intro l h
    simp only [classify, h, eq_self_iff_true, if_true]
  · intro l
    cases h1 : hasSub (("Extracting URL:").toList) l with
    | true => simp only [classify, classifyNoTrackInfo, h1, eq_self_iff_true, if_true]
    | false =>
    cases h2 : hasSub (("YouTube Music is not directly supported").toList) l with
    | true => simp only [classify, classifyNoTrackInfo, h1, h2, eq_self_iff_true, Bool.false_eq_true, if_true, if_false]
    | false =>
    cases h3 : (hasSub (("Downloading webpage").toList) l || hasSub (("Downloading API JSON").toList) l) with
    | true => simp only [classify, classifyNoTrackInfo, h1, h2, h3, eq_self_iff_true, Bool.false_eq_true, if_true, if_false]
    | false =>
    cases h4 : playlistNameOf l with
    | some v => simp only [classify, classifyNoTrackInfo, h1, h2, h3, h4, eq_self_iff_true, Bool.false_eq_true, if_true, if_false]
    | none =>
    cases h5 : searchO itemCountAt l with
    | some v => simp only [classify, classifyNoTrackInfo, h1, h2, h3, h4, h5, eq_self_iff_true, Bool.false_eq_true, if_true, if_false]
    | none =>
    cases h6 : searchO itemProgAt l with
    | some v => simp only [classify, classifyNoTrackInfo, h1, h2, h3, h4, h5, h6, eq_self_iff_true, Bool.false_eq_true, if_true, if_false]
    | none =>
    cases h7 : searchB extractingTrackAt l with
    | true => exact absurd (searchTrack_extracting h7) (by rw [h1]; exact Bool.false_ne_true)
    | false => simp only [classify, classifyNoTrackInfo, h1, h2, h3, h4, h5, h6, h7, eq_self_iff_true, Bool.false_eq_true, if_true, if_false]

/-- Witness for C10: a concrete youtube extraction line is caught by the
first rule. -/
theorem C10_dead_branch_witness :
    hasSub (("Extracting URL:").toList) (("[youtube] Extracting URL: https://x").toList) = true ∧
    classify (("[youtube] Extracting URL: https://x").toList) = Event.extractingUrl :=
  ⟨by decide, C10_dead_branch.1 (("[youtube] Extracting URL: https://x").toList) (by decide)⟩

end Ytmdl
